import Mathlib

/-!
Shallow embedding of the conversation-orchestration core of
`src/script/chat.py` (function `run_chat_session` and class
`ConversationLogger`), together with theorems settling the frozen claims
about it.

Conventions of the embedding:
* Python values produced by `json.loads` are modelled by the inductive
  type `Json`; a Python `str` value `s` is `Json.str s`.
* `json.loads` itself (an external library call) is modelled by a
  parameter `jl : String → Option Json`; `jl raw = none` models a
  `json.JSONDecodeError` being raised on `raw`, `jl raw = some v` models a
  successful parse yielding `v`.
* The behaviour of the backend (`client.models.generate_content` in the
  new-SDK path, `chat.send_message_async` in the legacy path) is a
  parameter `att : Nat → Except String BackendResp`: the outcome of the
  k-th backend call of the current loop iteration, `.error e` modelling an
  exception whose `str(...)` is `e`.
* The behaviour of the MCP tool session (`mcp_session.call_tool`) is a
  parameter `Nat → ToolCallOutcome`: the outcome of the k-th `call_tool`
  invocation of the iteration, `.raised e` modelling a transport-level
  exception with `str(e) = e`.
* Observable behaviour is a `List Event`: console display, speech-output
  dispatch, transcript-logger calls, backoff sleeps, backend contacts and
  tool dispatches, in program order.
-/

/-- Model of the Python values that `json.loads` can produce (with numbers
restricted to integers, which is all this program ever meets). A Python
`str` `s` is represented as `Json.str s`. -/
inductive Json where
  | null : Json
  | bool (b : Bool) : Json
  | num (n : Int) : Json
  | str (s : String) : Json
  | arr (elems : List Json) : Json
  | obj (fields : List (String × Json)) : Json
deriving Repr

/-- A single quote character, used by the Python `repr` rendering below. -/
def quoteCh : String := String.singleton (Char.ofNat 39)

mutual

/-- Best-effort model of Python `repr` on `json.loads` values (used by
f-string interpolation of non-`str` values). -/
def pyRepr : Json → String
  | Json.null => "None"
  | Json.bool b => if b then "True" else "False"
  | Json.num n => toString n
  | Json.str s => quoteCh ++ s ++ quoteCh
  | Json.arr xs => "[" ++ String.intercalate ", " (pyReprList xs) ++ "]"
  | Json.obj fs => "\x7b" ++ String.intercalate ", " (pyReprObj fs) ++ "\x7d"

/-- `pyRepr` mapped over a list of values. -/
def pyReprList : List Json → List String
  | [] => []
  | j :: js => pyRepr j :: pyReprList js

/-- `pyRepr` mapped over the fields of an object. -/
def pyReprObj : List (String × Json) → List String
  | [] => []
  | (k, v) :: fs => (quoteCh ++ k ++ quoteCh ++ ": " ++ pyRepr v) :: pyReprObj fs

end

/-- Model of Python `str(...)` on a `json.loads` value: a `str` renders as
itself, anything else via `repr`. -/
def pyStr : Json → String
  | Json.str s => s
  | j => pyRepr j

/-- Model of Python `d.get(k, dflt)` on a dict decoded from JSON
(`response_data.get("display_text", response.text)` and the analogous
`speech_text` lookup at lines 351-352 / 465-466 of `chat.py`). -/
def dictGet (fields : List (String × Json)) (k : String) (dflt : Json) : Json :=
  match fields.lookup k with
  | some v => v
  | none => dflt

/-- Python errors that the embedded fragments can raise besides backend /
tool exceptions: `AttributeError` models `.get` being called on a decoded
JSON value that is not a dict. -/
inductive PyError where
  | attributeError : PyError
deriving Repr, DecidableEq

/-- Rendering of a `PyError` as the `str(e)` printed by the outer
`except Exception` handler. -/
def pyErrStr : PyError → String
  | PyError.attributeError => "AttributeError"

/-- Observable events of one loop iteration, in program order. -/
inductive Event where
  | logUser (content : String) : Event
  | backendCall : Event
  | sleep (secs : Nat) : Event
  | display (text : String) : Event
  | speak (text : String) : Event
  | logAssistant (content : String) : Event
  | toolDispatch (name : String) : Event
  | feedback (name key payload : String) : Event
  | mcpInactive : Event
  | errorCaught (msg : String) : Event
  | fuelOut : Event
  | logSessionEnd : Event
deriving Repr, DecidableEq

/-- Lines 349-361 (identically lines 463-475) of `chat.py`: parse the
response text as JSON, extract `display_text` / `speech_text` with the raw
text as per-field default, print, speak and log; on `JSONDecodeError`
(modelled by `parsed = none`) print, speak and log the raw text itself.
Returns the pair of Python values bound to `display_text` / `speech_text`
together with the emitted events, or the `AttributeError` raised when the
decoded value is not a dict. -/
def processResponseText (parsed : Option Json) (raw : String) :
    Except PyError (Json × Json × List Event) :=
  match parsed with
  | none =>
      Except.ok (Json.str raw, Json.str raw,
        [Event.display raw, Event.speak raw, Event.logAssistant raw])
  | some (Json.obj fields) =>
      let display_text := dictGet fields "display_text" (Json.str raw)
      let speech_text := dictGet fields "speech_text" (Json.str raw)
      Except.ok (display_text, speech_text,
        [Event.display (pyStr display_text), Event.speak (pyStr speech_text),
         Event.logAssistant (pyStr display_text)])
  | some _ => Except.error PyError.attributeError

/-- Whether the first character list is a prefix of the second. -/
def charPrefix : List Char → List Char → Bool
  | [], _ => true
  | _ :: _, [] => false
  | a :: as, b :: bs => a == b && charPrefix as bs

/-- Whether the first character list occurs contiguously in the second. -/
def charInfix (needle : List Char) : List Char → Bool
  | [] => needle.isEmpty
  | c :: rest => charPrefix needle (c :: rest) || charInfix needle rest

/-- Model of the Python substring test `needle in hay`: the needle's
character sequence occurs contiguously in the haystack's. -/
def pyIn (needle hay : String) : Bool := charInfix needle.data hay.data

/-- Line 322 of `chat.py`: `"429" in error_str or "RESOURCE_EXHAUSTED" in
error_str` — the retryable/fatal classification of a backend error. -/
def isRetryable (error_str : String) : Bool :=
  pyIn "429" error_str || pyIn "RESOURCE_EXHAUSTED" error_str

/-- One content fragment of an MCP `call_tool` result. -/
structure McpContent where
  type : String
  text : String
deriving Repr, DecidableEq

/-- Model of the MCP `call_tool` result object. -/
structure McpResult where
  isError : Bool
  content : List McpContent
deriving Repr, DecidableEq

/-- Lines 427-433 of `chat.py`: the `tool_output` string built from an MCP
result — the in-order concatenation of the `text` of text-typed fragments
when the session reports success, the fixed string
`"Error executing tool."` when it reports an error outcome. -/
def toolOutput (r : McpResult) : String :=
  if !r.isError then
    r.content.foldl (fun acc c => if c.type == "text" then acc ++ c.text else acc) ""
  else
    "Error executing tool."

/-- The spec's text-extraction rule, stated in its own words: the in-order
concatenation of every text-typed content fragment, non-text fragments
ignored. Used to compare `toolOutput` against the specification. -/
def textConcatSpec (cs : List McpContent) : String :=
  ((cs.filter (fun c => c.type == "text")).map McpContent.text).foldr (· ++ ·) ""

/-- Line 308 of `chat.py`: `max_retries = 3`. -/
def max_retries : Nat := 3

/-- Line 309 of `chat.py`: `retry_delay = 5` (the initial backoff delay). -/
def retry_delay : Nat := 5

/-- A backend response: either an embedded function-call request (the
`response.parts[0].function_call` case) or plain text. `BackendResp.text ""`
models a response whose `.text` is falsy (empty or `None`). -/
inductive BackendResp where
  | toolCall (name : String) (args : List (String × String)) : BackendResp
  | text (t : String) : BackendResp
deriving Repr, DecidableEq

/-- The `response.text` attribute of a backend response; a pure
function-call response has no text. -/
def respText : BackendResp → String
  | BackendResp.toolCall _ _ => ""
  | BackendResp.text t => t

/-- How the retry loop of lines 307-337 ends: with a response (`break`),
with an exception propagating out (`raise`, both the fatal and the
exhausted case), or with the loop running out of attempts leaving
`response = None` (unreachable for `max_retries = 3`, but kept for
faithfulness to the `if response is None: continue` guard at line 339). -/
inductive RetryOutcome where
  | got (r : BackendResp) : RetryOutcome
  | raisedErr (e : String) : RetryOutcome
  | noResponse : RetryOutcome
deriving Repr, DecidableEq

/-- Body of the `for attempt in range(max_retries)` loop of lines 312-337
of `chat.py`, recursing over the remaining attempt indices. Each backend
contact emits `Event.backendCall`; each executed backoff emits
`Event.sleep delay` and doubles the delay. A retryable failure on a
non-final attempt sleeps and continues; on the final attempt it re-raises
(exhaustion); a non-retryable failure re-raises at once. -/
def retryGo (att : Nat → Except String BackendResp) (delay : Nat) :
    List Nat → List Event × RetryOutcome
  | [] => ([], RetryOutcome.noResponse)
  | attempt :: rest =>
    match att attempt with
    | Except.ok r => ([Event.backendCall], RetryOutcome.got r)
    | Except.error e =>
      if isRetryable e then
        if attempt < max_retries - 1 then
          let cont := retryGo att (delay * 2) rest
          (Event.backendCall :: Event.sleep delay :: cont.1, cont.2)
        else ([Event.backendCall], RetryOutcome.raisedErr e)
      else ([Event.backendCall], RetryOutcome.raisedErr e)

/-- The whole retry-wrapped backend call of lines 307-340: attempts indexed
by `range(max_retries)`, starting from the initial delay. -/
def runRetry (att : Nat → Except String BackendResp) : List Event × RetryOutcome :=
  retryGo att retry_delay (List.range max_retries)

/-- The backoff sleeps performed during a run, in order. -/
def sleeps (evs : List Event) : List Nat :=
  evs.filterMap (fun e => match e with | Event.sleep d => some d | _ => none)

/-- The number of backend contacts (attempts) in a run. -/
def callCount (evs : List Event) : Nat :=
  (evs.filter (fun e => match e with | Event.backendCall => true | _ => false)).length

/-- Model of Python `str.lower()` (`prompt.lower()` at lines 277 / 402):
character-wise ASCII case folding. -/
def pyLower (s : String) : String := String.mk (s.data.map Char.toLower)

/-- Role of a turn kept in `chat_history` (new-SDK path). -/
inductive Role where
  | user : Role
  | model : Role
deriving Repr, DecidableEq

/-- One `types.Content` entry of `chat_history`: a role and the text of its
single part. -/
structure Content where
  role : Role
  text : String
deriving Repr, DecidableEq

/-- Whether the loop iteration ended the session (`break`) or went on to
the next input (`continue` / falling through). -/
inductive TurnEnd where
  | exited : TurnEnd
  | continued : TurnEnd
deriving Repr, DecidableEq

/-- Result of one new-SDK loop iteration: its observable events, the
`chat_history` after the iteration, and whether the session ended. -/
structure NewTurnResult where
  events : List Event
  history : List Content
  ending : TurnEnd
deriving Repr, DecidableEq

/-- One iteration of the new-SDK (`google-genai`) loop, lines 259-371 of
`chat.py`, starting from the resolved prompt (input acquisition and voice
capture are external collaborators). Exit keywords close the logger and
break; an empty prompt continues; otherwise the user turn is appended to
`chat_history`, the user line is logged, the backend is called through the
retry loop, and on a response with non-empty text the model turn is
appended and the text processed (JSON parse with per-field fallback). An
exception propagating from the retry loop or from processing is caught by
the outer `except Exception` handler, which reports it and continues. -/
def newSDKTurn (jl : String → Option Json) (att : Nat → Except String BackendResp)
    (hist : List Content) (prompt : String) : NewTurnResult :=
  if pyLower prompt == "exit" || pyLower prompt == "quit" then
    ⟨[Event.logSessionEnd], hist, TurnEnd.exited⟩
  else if prompt == "" then
    ⟨[], hist, TurnEnd.continued⟩
  else
    let hist1 := hist ++ [⟨Role.user, prompt⟩]
    match runRetry att with
    | (evs, RetryOutcome.raisedErr e) =>
        ⟨Event.logUser prompt :: (evs ++ [Event.errorCaught e]), hist1, TurnEnd.continued⟩
    | (evs, RetryOutcome.noResponse) =>
        ⟨Event.logUser prompt :: evs, hist1, TurnEnd.continued⟩
    | (evs, RetryOutcome.got r) =>
        let t := respText r
        if t == "" then
          ⟨Event.logUser prompt :: evs, hist1, TurnEnd.continued⟩
        else
          let hist2 := hist1 ++ [⟨Role.model, t⟩]
          match processResponseText (jl t) t with
          | Except.ok (_, _, pevs) =>
              ⟨Event.logUser prompt :: (evs ++ pevs), hist2, TurnEnd.continued⟩
          | Except.error pe =>
              ⟨Event.logUser prompt :: (evs ++ [Event.errorCaught (pyErrStr pe)]),
               hist2, TurnEnd.continued⟩

/-- Outcome of one `mcp_session.call_tool` invocation: a result object, or
a transport-level exception with message `e`. -/
inductive ToolCallOutcome where
  | res (r : McpResult) : ToolCallOutcome
  | raised (e : String) : ToolCallOutcome
deriving Repr

/-- The legacy-path function-call loop of lines 416-459 of `chat.py`, plus
the final response processing of lines 462-475. `si` / `bi` index the
session's `call_tool` outcomes and the backend follow-up calls; `fuel`
bounds the unbounded `while` for totality (`Event.fuelOut` marks
exhaustion, never reached in the runs the theorems consider). While the
response carries a function call: with no session, report and break (the
function-call response has no text, so nothing is displayed); otherwise
dispatch to the session, build the feedback — key `"result"` with
`toolOutput` on a session result, key `"error"` with the stringified
exception on a transport failure — and send it as the next backend call. A
failing send propagates to the outer handler. -/
def toolLoopAux (jl : String → Option Json) (att : Nat → Except String BackendResp)
    (sess : Option (Nat → ToolCallOutcome)) :
    Nat → Nat → Nat → BackendResp → List Event × TurnEnd
  | _, _, 0, _ => ([Event.fuelOut], TurnEnd.continued)
  | si, bi, fuel + 1, resp =>
    match resp with
    | BackendResp.text t =>
      if t == "" then ([], TurnEnd.continued)
      else
        match processResponseText (jl t) t with
        | Except.ok (_, _, pevs) => (pevs, TurnEnd.continued)
        | Except.error pe => ([Event.errorCaught (pyErrStr pe)], TurnEnd.continued)
    | BackendResp.toolCall n _args =>
      match sess with
      | none => ([Event.mcpInactive], TurnEnd.continued)
      | some s =>
        match s si with
        | ToolCallOutcome.res r =>
          let out := toolOutput r
          match att bi with
          | Except.ok r2 =>
              let cont := toolLoopAux jl att (some s) (si + 1) (bi + 1) fuel r2
              (Event.toolDispatch n :: Event.feedback n "result" out :: cont.1, cont.2)
          | Except.error e2 =>
              ([Event.toolDispatch n, Event.feedback n "result" out,
                Event.errorCaught e2], TurnEnd.continued)
        | ToolCallOutcome.raised e =>
          match att bi with
          | Except.ok r2 =>
              let cont := toolLoopAux jl att (some s) (si + 1) (bi + 1) fuel r2
              (Event.toolDispatch n :: Event.feedback n "error" e :: cont.1, cont.2)
          | Except.error e2 =>
              ([Event.toolDispatch n, Event.feedback n "error" e,
                Event.errorCaught e2], TurnEnd.continued)

/-- One iteration of the legacy-SDK (`google-generativeai`) loop, lines
384-483 of `chat.py`, starting from the resolved prompt. Exit and empty
inputs behave as in the new-SDK loop; otherwise the user line is logged
and the prompt sent (backend call 0, no retry wrapper); an exception
propagates to the outer handler, else the function-call loop and final
processing run. -/
def legacyTurn (jl : String → Option Json) (att : Nat → Except String BackendResp)
    (sess : Option (Nat → ToolCallOutcome)) (fuel : Nat) (prompt : String) :
    List Event × TurnEnd :=
  if pyLower prompt == "exit" || pyLower prompt == "quit" then
    ([Event.logSessionEnd], TurnEnd.exited)
  else if prompt == "" then
    ([], TurnEnd.continued)
  else
    match att 0 with
    | Except.error e =>
        ([Event.logUser prompt, Event.backendCall, Event.errorCaught e], TurnEnd.continued)
    | Except.ok r =>
        let rest := toolLoopAux jl att sess 0 1 fuel r
        (Event.logUser prompt :: Event.backendCall :: rest.1, rest.2)

/-- The conversation-interface view of a new-SDK iteration (events and
ending; `chat_history` is internal state). -/
def obsNew (t : NewTurnResult) : List Event × TurnEnd := (t.events, t.ending)

/-- Line 89 of `chat.py`: the line `ConversationLogger.log` appends for one
`(speaker, content)` pair (timestamp abstracted as a parameter). -/
def logLine (ts speaker content : String) : String :=
  "[" ++ ts ++ "] " ++ speaker ++ ": " ++ content

/-- Line 97 of `chat.py`: the session-end marker line written by
`ConversationLogger.close`. -/
def sessionEndLine (ts : String) : String :=
  "=== Chat Session Ended: " ++ ts ++ " ==="

/-- `ConversationLogger.log` (lines 86-92): append one formatted line to
the log file, modelled as the list of its lines. -/
def ConversationLogger.log (lines : List String) (ts speaker content : String) :
    List String :=
  lines ++ [logLine ts speaker content]

/-- `ConversationLogger.close` (lines 94-97): append the session-end
marker. -/
def ConversationLogger.close (lines : List String) (ts : String) : List String :=
  lines ++ [sessionEndLine ts]

/-- Replay the logger calls an event list induces onto a log file. -/
def runLogger (lines : List String) (ts : String) : List Event → List String
  | [] => lines
  | Event.logUser c :: rest => runLogger (ConversationLogger.log lines ts "User" c) ts rest
  | Event.logAssistant c :: rest =>
      runLogger (ConversationLogger.log lines ts "Assistant" c) ts rest
  | Event.logSessionEnd :: rest => runLogger (ConversationLogger.close lines ts) ts rest
  | _ :: rest => runLogger lines ts rest

/-- Whether an event list contains a tool dispatch. -/
def hasDispatch : List Event → Bool
  | [] => false
  | Event.toolDispatch _ :: _ => true
  | _ :: rest => hasDispatch rest

/-- Whether, somewhere in an event list, a tool dispatch occurs after a
transport-failure feedback (a `feedback` with key `"error"`). -/
def dispatchAfterTransportFailure : List Event → Bool
  | [] => false
  | Event.feedback _ k _ :: rest =>
      if k == "error" then hasDispatch rest else dispatchAfterTransportFailure rest
  | _ :: rest => dispatchAfterTransportFailure rest

/-- A concrete parse function on which every input fails to parse
(`json.JSONDecodeError` on every body). -/
def jlNone : String → Option Json := fun _ => none

/-- A concrete backend on which every call succeeds with plain text. -/
def wAttOk : Nat → Except String BackendResp :=
  fun _ => Except.ok (BackendResp.text "ok")

lemma dictGet_eq_getD (fields : List (String × Json)) (k : String) (dflt : Json) :
    dictGet fields k dflt = (fields.lookup k).getD dflt := by
  unfold dictGet
  cases fields.lookup k <;> rfl

lemma foldl_text_concat (cs : List McpContent) (acc : String) :
    cs.foldl (fun a c => if c.type == "text" then a ++ c.text else a) acc
      = acc ++ textConcatSpec cs := by
  induction cs generalizing acc with
  | nil => simp [textConcatSpec]
  | cons c cs ih =>
    by_cases h : c.type = "text"
    · rw [List.foldl_cons, if_pos (show (c.type == "text") = true by simp [h]), ih]
      simp [textConcatSpec, List.filter_cons, h, String.append_assoc]
    · rw [List.foldl_cons, if_neg (show ¬(c.type == "text") = true by simp [h]), ih]
      simp [textConcatSpec, List.filter_cons, h]

/-- C6: a raw backend response body that fails to parse as JSON degrades
gracefully: both structured fields equal the raw text, the raw text is
displayed, spoken and logged, and no error is raised. -/
theorem c6_parse_fallback (jl : String → Option Json) (raw : String)
    (h : jl raw = none) :
    processResponseText (jl raw) raw =
      Except.ok (Json.str raw, Json.str raw,
        [Event.display raw, Event.speak raw, Event.logAssistant raw]) := by
  rw [h]
  rfl

theorem c6_parse_fallback_witness :
    processResponseText (jlNone "hello") "hello" =
      Except.ok (Json.str "hello", Json.str "hello",
        [Event.display "hello", Event.speak "hello", Event.logAssistant "hello"]) :=
  c6_parse_fallback jlNone "hello" rfl

/-- C10: a body that parses as a JSON object gets per-field fallback: each
of `display_text` / `speech_text` is looked up independently and falls
back to the whole raw text exactly when its own key is missing. -/
theorem c10_per_field_fallback (jl : String → Option Json) (raw : String)
    (fields : List (String × Json)) (h : jl raw = some (Json.obj fields)) :
    processResponseText (jl raw) raw =
      Except.ok ((fields.lookup "display_text").getD (Json.str raw),
        (fields.lookup "speech_text").getD (Json.str raw),
        [Event.display (pyStr ((fields.lookup "display_text").getD (Json.str raw))),
         Event.speak (pyStr ((fields.lookup "speech_text").getD (Json.str raw))),
         Event.logAssistant (pyStr ((fields.lookup "display_text").getD (Json.str raw)))]) := by
  rw [h]
  simp [processResponseText, dictGet_eq_getD]

/-- A concrete parse function returning an object that has `display_text`
but no `speech_text`. -/
def jlObjD : String → Option Json :=
  fun _ => some (Json.obj [("display_text", Json.str "D")])

theorem c10_per_field_fallback_witness :
    processResponseText (jlObjD "rawtext") "rawtext" =
      Except.ok (([("display_text", Json.str "D")].lookup "display_text").getD (Json.str "rawtext"),
        ([("display_text", Json.str "D")].lookup "speech_text").getD (Json.str "rawtext"),
        [Event.display (pyStr (([("display_text", Json.str "D")].lookup "display_text").getD (Json.str "rawtext"))),
         Event.speak (pyStr (([("display_text", Json.str "D")].lookup "speech_text").getD (Json.str "rawtext"))),
         Event.logAssistant (pyStr (([("display_text", Json.str "D")].lookup "display_text").getD (Json.str "rawtext")))]) :=
  c10_per_field_fallback jlObjD "rawtext" [("display_text", Json.str "D")] rfl

/-- C7: on a session-reported error outcome the payload fed back is exactly
`"Error executing tool."` (independent of the result's content, so no
internal detail leaks); on a success outcome it is the in-order
concatenation of the text-typed content fragments, non-text fragments
ignored. -/
theorem c7_tool_result_payload (r : McpResult) :
    (r.isError = true → toolOutput r = "Error executing tool.") ∧
    (r.isError = false → toolOutput r = textConcatSpec r.content) := by
  constructor
  · intro h
    simp [toolOutput, h]
  · intro h
    have hu : toolOutput r =
        r.content.foldl (fun acc c => if c.type == "text" then acc ++ c.text else acc) "" := by
      simp [toolOutput, h]
    rw [hu, foldl_text_concat]
    cases hq : textConcatSpec r.content
    rfl

theorem c7_tool_result_payload_witness :
    toolOutput ⟨true, [⟨"text", "secret detail"⟩]⟩ = "Error executing tool." ∧
    toolOutput ⟨false, [⟨"text", "a"⟩, ⟨"image", "x"⟩, ⟨"text", "b"⟩]⟩ =
      textConcatSpec [⟨"text", "a"⟩, ⟨"image", "x"⟩, ⟨"text", "b"⟩] :=
  ⟨(c7_tool_result_payload ⟨true, [⟨"text", "secret detail"⟩]⟩).1 rfl,
   (c7_tool_result_payload ⟨false, [⟨"text", "a"⟩, ⟨"image", "x"⟩, ⟨"text", "b"⟩]⟩).2 rfl⟩

/-- C9: an empty resolved input is a no-op in both loop generations: no
event (in particular no backend contact, no log line), no turn appended to
the history, and the loop goes on to the next input. -/
theorem c9_empty_input_noop (jl : String → Option Json)
    (att : Nat → Except String BackendResp) (sess : Option (Nat → ToolCallOutcome))
    (hist : List Content) (fuel : Nat) (p : String) (h : p = "") :
    newSDKTurn jl att hist p = ⟨[], hist, TurnEnd.continued⟩ ∧
    legacyTurn jl att sess fuel p = ([], TurnEnd.continued) := by
  subst h
  have h1 : ¬((pyLower "" == "exit" || pyLower "" == "quit") = true) := by decide
  have h2 : ("" == "") = true := by decide
  constructor
  · unfold newSDKTurn
    rw [if_neg h1, if_pos h2]
  · unfold legacyTurn
    rw [if_neg h1, if_pos h2]

theorem c9_empty_input_noop_witness :
    newSDKTurn jlNone wAttOk [] "" = ⟨[], [], TurnEnd.continued⟩ ∧
    legacyTurn jlNone wAttOk none 0 "" = ([], TurnEnd.continued) :=
  c9_empty_input_noop jlNone wAttOk none [] 0 "" rfl

/-- C8: an input equal to "exit" or "quit" up to letter case terminates
either loop generation cleanly with no backend contact — the only event is
the logger close — and replaying that event onto the transcript log
appends exactly the session-end marker. -/
theorem c8_exit_terminates (jl : String → Option Json)
    (att : Nat → Except String BackendResp) (sess : Option (Nat → ToolCallOutcome))
    (hist : List Content) (fuel : Nat) (p ts : String) (L : List String)
    (h : pyLower p = "exit" ∨ pyLower p = "quit") :
    obsNew (newSDKTurn jl att hist p) = ([Event.logSessionEnd], TurnEnd.exited) ∧
    legacyTurn jl att sess fuel p = ([Event.logSessionEnd], TurnEnd.exited) ∧
    runLogger L ts [Event.logSessionEnd] = L ++ [sessionEndLine ts] := by
  have hb : (pyLower p == "exit" || pyLower p == "quit") = true := by
    rcases h with h | h <;> simp [h]
  refine ⟨?_, ?_, ?_⟩
  · simp [obsNew, newSDKTurn, hb]
  · simp [legacyTurn, hb]
  · simp [runLogger, ConversationLogger.close]

theorem c8_exit_terminates_witness :
    obsNew (newSDKTurn jlNone wAttOk [] "EXIT") = ([Event.logSessionEnd], TurnEnd.exited) ∧
    legacyTurn jlNone wAttOk none 0 "EXIT" = ([Event.logSessionEnd], TurnEnd.exited) ∧
    runLogger ["header"] "T" [Event.logSessionEnd] = ["header"] ++ [sessionEndLine "T"] :=
  c8_exit_terminates jlNone wAttOk none [] 0 "EXIT" "T" ["header"] (Or.inl (by decide))

lemma runRetry_unfold (att : Nat → Except String BackendResp) :
    runRetry att =
      match att 0 with
      | Except.ok r => ([Event.backendCall], RetryOutcome.got r)
      | Except.error e0 =>
        if isRetryable e0 then
          match att 1 with
          | Except.ok r =>
              ([Event.backendCall, Event.sleep 5, Event.backendCall], RetryOutcome.got r)
          | Except.error e1 =>
            if isRetryable e1 then
              match att 2 with
              | Except.ok r =>
                  ([Event.backendCall, Event.sleep 5, Event.backendCall,
                    Event.sleep 10, Event.backendCall], RetryOutcome.got r)
              | Except.error e2 =>
                  ([Event.backendCall, Event.sleep 5, Event.backendCall,
                    Event.sleep 10, Event.backendCall], RetryOutcome.raisedErr e2)
            else
              ([Event.backendCall, Event.sleep 5, Event.backendCall],
               RetryOutcome.raisedErr e1)
        else ([Event.backendCall], RetryOutcome.raisedErr e0) := by
  have hrange : List.range max_retries = [0, 1, 2] := by rfl
  rw [runRetry, hrange]
  rcases h0 : att 0 with e0 | r0 <;>
    simp [retryGo, retry_delay, max_retries, h0]
  rcases h1 : att 1 with e1 | r1 <;> simp [retryGo, h1]
  rcases h2 : att 2 with e2 | r2 <;> simp [retryGo, h2] <;> split_ifs <;> simp

/-- C1: with two retryable failures the backoff sleeps are exactly 5 then
10 (the delay doubling each time), exactly 3 attempts are made and the
outcome is the third attempt's: its response on success, the re-raised
exhaustion error on failure; moreover for every backend behaviour the
retry loop makes at most 3 attempts and sleeps at most twice (never a
fourth delay). -/
theorem c1_backoff_growth (att : Nat → Except String BackendResp) (e0 e1 : String)
    (h0 : att 0 = Except.error e0) (hr0 : isRetryable e0 = true)
    (h1 : att 1 = Except.error e1) (hr1 : isRetryable e1 = true) :
    sleeps (runRetry att).1 = [5, 10] ∧
    callCount (runRetry att).1 = 3 ∧
    ((runRetry att).2 = match att 2 with
      | Except.ok r => RetryOutcome.got r
      | Except.error e2 => RetryOutcome.raisedErr e2) ∧
    (∀ g : Nat → Except String BackendResp,
      callCount (runRetry g).1 ≤ 3 ∧ (sleeps (runRetry g).1).length ≤ 2) := by
  refine ⟨?_, ?_, ?_, ?_⟩
  · rw [runRetry_unfold att, h0]
    rcases h2 : att 2 with e2 | r2 <;> simp [hr0, h1, hr1, h2, sleeps]
  · rw [runRetry_unfold att, h0]
    rcases h2 : att 2 with e2 | r2 <;> simp [hr0, h1, hr1, h2, callCount]
  · rw [runRetry_unfold att, h0]
    rcases h2 : att 2 with e2 | r2 <;> simp [hr0, h1, hr1, h2]
  · intro g
    rw [runRetry_unfold g]
    rcases hg0 : g 0 with f0 | s0
    · by_cases hb0 : isRetryable f0
      · rcases hg1 : g 1 with f1 | s1
        · by_cases hb1 : isRetryable f1
          · rcases hg2 : g 2 with f2 | s2 <;>
              simp [hb0, hb1, sleeps, callCount]
          · simp [hb0, hb1, sleeps, callCount]
        · simp [hb0, sleeps, callCount]
      · simp [hb0, sleeps, callCount]
    · simp [sleeps, callCount]

/-- The backend behaviour of the C1 witness: rate-limited twice, then a
successful third attempt. -/
def wAttC1 : Nat → Except String BackendResp
  | 0 => Except.error "HTTP 429 quota exceeded"
  | 1 => Except.error "HTTP 429 quota exceeded"
  | _ => Except.ok (BackendResp.text "done")

theorem c1_backoff_growth_witness :
    sleeps (runRetry wAttC1).1 = [5, 10] ∧
    callCount (runRetry wAttC1).1 = 3 ∧
    ((runRetry wAttC1).2 = match wAttC1 2 with
      | Except.ok r => RetryOutcome.got r
      | Except.error e2 => RetryOutcome.raisedErr e2) ∧
    (∀ g : Nat → Except String BackendResp,
      callCount (runRetry g).1 ≤ 3 ∧ (sleeps (runRetry g).1).length ≤ 2) :=
  c1_backoff_growth wAttC1 "HTTP 429 quota exceeded" "HTTP 429 quota exceeded"
    rfl (by decide) rfl (by decide)

/-- C5: a failed first attempt is retried (a second backend contact
happens) exactly when its message contains "429" or "RESOURCE_EXHAUSTED";
with neither marker the error propagates at once — one attempt, no sleep,
the same error re-raised; with a marker the first two events are the
attempt and a 5-unit backoff sleep. -/
theorem c5_retry_classification (att : Nat → Except String BackendResp)
    (e : String) (h : att 0 = Except.error e) :
    ((pyIn "429" e || pyIn "RESOURCE_EXHAUSTED" e) = true ↔
      2 ≤ callCount (runRetry att).1) ∧
    ((pyIn "429" e || pyIn "RESOURCE_EXHAUSTED" e) = false →
      runRetry att = ([Event.backendCall], RetryOutcome.raisedErr e)) ∧
    ((pyIn "429" e || pyIn "RESOURCE_EXHAUSTED" e) = true →
      (runRetry att).1.take 2 = [Event.backendCall, Event.sleep 5]) := by
  have hcl : isRetryable e = (pyIn "429" e || pyIn "RESOURCE_EXHAUSTED" e) := rfl
  refine ⟨⟨?_, ?_⟩, ?_, ?_⟩
  · intro hm
    rw [runRetry_unfold att, h]
    rcases h1 : att 1 with f1 | s1
    · by_cases hb1 : isRetryable f1
      · rcases h2 : att 2 with f2 | s2 <;>
          simp [hcl, hm, hb1, callCount]
      · simp [hcl, hm, hb1, callCount]
    · simp [hcl, hm, callCount]
  · intro hc
    by_contra hm
    have hm' : (pyIn "429" e || pyIn "RESOURCE_EXHAUSTED" e) = false := by
      simpa using hm
    rw [runRetry_unfold att, h] at hc
    simp [hcl, hm', callCount] at hc
  · intro hm
    rw [runRetry_unfold att, h]
    simp [hcl, hm]
  · intro hm
    rw [runRetry_unfold att, h]
    rcases h1 : att 1 with f1 | s1
    · by_cases hb1 : isRetryable f1
      · rcases h2 : att 2 with f2 | s2 <;> simp [hcl, hm, hb1]
      · simp [hcl, hm, hb1]
    · simp [hcl, hm]

/-- The backend behaviour of the C5 witness: a fatal (non-rate-limit)
failure on the first attempt. -/
def wAttC5 : Nat → Except String BackendResp := fun _ => Except.error "500 internal"

theorem c5_retry_classification_witness :
    ((pyIn "429" "500 internal" || pyIn "RESOURCE_EXHAUSTED" "500 internal") = true ↔
      2 ≤ callCount (runRetry wAttC5).1) ∧
    ((pyIn "429" "500 internal" || pyIn "RESOURCE_EXHAUSTED" "500 internal") = false →
      runRetry wAttC5 = ([Event.backendCall], RetryOutcome.raisedErr "500 internal")) ∧
    ((pyIn "429" "500 internal" || pyIn "RESOURCE_EXHAUSTED" "500 internal") = true →
      (runRetry wAttC5).1.take 2 = [Event.backendCall, Event.sleep 5]) :=
  c5_retry_classification wAttC5 "500 internal" rfl

/-- A backend behaviour failing every attempt with a non-retryable
error. -/
def wAttBoom : Nat → Except String BackendResp := fun _ => Except.error "boom"

/-- C4 counterexample: starting from an empty conversation state, a turn
whose backend call fails fatally does NOT leave the transcript unchanged —
the user Turn of the failed exchange remains in `chat_history` and is part
of the context of subsequent requests. -/
theorem c4_transcript_counterexample :
    (newSDKTurn jlNone wAttBoom [] "hello").history ≠ ([] : List Content) := by
  decide

/-- C4 amended: the user Turn is appended to `chat_history` before the
backend call and is retained even when the call fails (fatally or by
exhaustion); only the model Turn's append is conditional, happening after
a successful response with non-empty text. -/
theorem c4_append_semantics (jl : String → Option Json)
    (att : Nat → Except String BackendResp) (hist : List Content) (p e : String)
    (r : BackendResp)
    (hx : (pyLower p == "exit" || pyLower p == "quit") = false)
    (he : (p == "") = false) :
    ((runRetry att).2 = RetryOutcome.raisedErr e →
      (newSDKTurn jl att hist p).history = hist ++ [⟨Role.user, p⟩]) ∧
    ((runRetry att).2 = RetryOutcome.got r → respText r ≠ "" →
      (newSDKTurn jl att hist p).history =
        hist ++ [⟨Role.user, p⟩, ⟨Role.model, respText r⟩]) := by
  have hx' : ¬((pyLower p == "exit" || pyLower p == "quit") = true) := by simp [hx]
  have he' : ¬((p == "") = true) := by simp [he]
  rcases hR : runRetry att with ⟨evs, out⟩
  constructor
  · intro hout
    simp only at hout
    subst hout
    unfold newSDKTurn
    rw [if_neg hx', if_neg he', hR]
  · intro hout ht
    simp only at hout
    subst hout
    have ht' : ¬((respText r == "") = true) := by simpa using ht
    unfold newSDKTurn
    rw [if_neg hx', if_neg he', hR]
    simp only
    rw [if_neg ht']
    rcases hpr : processResponseText (jl (respText r)) (respText r) with pe | ⟨d, s, pevs⟩ <;>
      simp [hpr, List.append_assoc]

theorem c4_append_semantics_witness :
    ((runRetry wAttBoom).2 = RetryOutcome.raisedErr "boom" →
      (newSDKTurn jlNone wAttBoom [] "hello").history = [] ++ [⟨Role.user, "hello"⟩]) ∧
    ((runRetry wAttBoom).2 = RetryOutcome.got (BackendResp.text "t") →
      respText (BackendResp.text "t") ≠ "" →
      (newSDKTurn jlNone wAttBoom [] "hello").history =
        [] ++ [⟨Role.user, "hello"⟩, ⟨Role.model, respText (BackendResp.text "t")⟩]) :=
  c4_append_semantics jlNone wAttBoom [] "hello" "boom" (BackendResp.text "t")
    (by decide) (by decide)

/-- C2 counterexample backend: a first response requesting tool "toolA",
a follow-up requesting tool "toolB", then a final text. -/
def wAttC2 : Nat → Except String BackendResp
  | 0 => Except.ok (BackendResp.toolCall "toolA" [])
  | 1 => Except.ok (BackendResp.toolCall "toolB" [])
  | _ => Except.ok (BackendResp.text "done")

/-- C2 counterexample session: the first `call_tool` raises a
transport-level exception, later calls succeed. -/
def wSessC2 : Nat → ToolCallOutcome
  | 0 => ToolCallOutcome.raised "transport broken"
  | _ => ToolCallOutcome.res ⟨false, [⟨"text", "ok"⟩]⟩

/-- C2 counterexample: in a legacy-path turn whose first tool call fails
at the transport level, a further tool dispatch to the same session still
occurs after the failure feedback — the driver does not refuse subsequent
tool dispatch for the conversation. -/
theorem c2_refusal_counterexample :
    dispatchAfterTransportFailure
      (legacyTurn jlNone wAttC2 (some wSessC2) 5 "hi").1 = true := by
  decide

/-- C2 amended: after a transport-level failure contacting the session the
driver feeds the stringified failure back to the backend (a function
response with key "error" and the exception text as payload) and then
continues the sub-loop exactly as it would on any follow-up response — in
particular further tool-call requests are dispatched to the same session
as usual, with no refusal and no unusable-marking. -/
theorem c2_transport_failure_behavior (jl : String → Option Json)
    (att : Nat → Except String BackendResp) (s : Nat → ToolCallOutcome)
    (si bi fuel : Nat) (n : String) (args : List (String × String)) (e : String)
    (h : s si = ToolCallOutcome.raised e) :
    toolLoopAux jl att (some s) si bi (fuel + 1) (BackendResp.toolCall n args) =
      (match att bi with
       | Except.ok r2 =>
         (Event.toolDispatch n :: Event.feedback n "error" e ::
            (toolLoopAux jl att (some s) (si + 1) (bi + 1) fuel r2).1,
          (toolLoopAux jl att (some s) (si + 1) (bi + 1) fuel r2).2)
       | Except.error e2 =>
         ([Event.toolDispatch n, Event.feedback n "error" e, Event.errorCaught e2],
          TurnEnd.continued)) := by
  rcases hb : att bi with e2 | r2 <;> simp [toolLoopAux, h, hb]

theorem c2_transport_failure_behavior_witness :
    toolLoopAux jlNone wAttC2 (some wSessC2) 0 1 (3 + 1) (BackendResp.toolCall "toolA" []) =
      (match wAttC2 1 with
       | Except.ok r2 =>
         (Event.toolDispatch "toolA" :: Event.feedback "toolA" "error" "transport broken" ::
            (toolLoopAux jlNone wAttC2 (some wSessC2) (0 + 1) (1 + 1) 3 r2).1,
          (toolLoopAux jlNone wAttC2 (some wSessC2) (0 + 1) (1 + 1) 3 r2).2)
       | Except.error e2 =>
         ([Event.toolDispatch "toolA", Event.feedback "toolA" "error" "transport broken",
           Event.errorCaught e2], TurnEnd.continued)) :=
  c2_transport_failure_behavior jlNone wAttC2 wSessC2 0 1 3 "toolA" [] "transport broken" rfl

/-- C3 counterexample backend: the first call returns a tool-call request,
every follow-up a final text. -/
def wAttC3 : Nat → Except String BackendResp
  | 0 => Except.ok (BackendResp.toolCall "search" [("q", "weather")])
  | _ => Except.ok (BackendResp.text "the answer")

/-- C3 counterexample session: every tool call succeeds with one text
fragment. -/
def wSessOk : Nat → ToolCallOutcome :=
  fun _ => ToolCallOutcome.res ⟨false, [⟨"text", "sunny"⟩]⟩

/-- C3 counterexample: for the same user input, the same backend behaviour
(first response requests a tool) and the same tool session, the new-SDK
path and the legacy path produce different observable behaviour — the
legacy path resolves the tool call and displays the final answer, the
new-SDK path ignores the tool-call request and shows nothing. -/
theorem c3_generation_equiv_counterexample :
    obsNew (newSDKTurn jlNone wAttC3 [] "hi") ≠
      legacyTurn jlNone wAttC3 (some wSessOk) 5 "hi" := by
  decide

/-- C3 amended: the two generations agree on the conversation interface
for every turn whose first backend call either returns a plain-text
response (no tool-call request) or fails with a non-retryable error; they
are not equivalent in general, because only the legacy path resolves
tool-call requests and only the new path retries rate-limited calls. -/
theorem c3_restricted_equivalence (jl : String → Option Json)
    (att : Nat → Except String BackendResp) (sess : Option (Nat → ToolCallOutcome))
    (hist : List Content) (fuel : Nat) (p : String)
    (h : (∃ t, att 0 = Except.ok (BackendResp.text t)) ∨
         (∃ e, att 0 = Except.error e ∧ isRetryable e = false)) :
    obsNew (newSDKTurn jl att hist p) = legacyTurn jl att sess (fuel + 1) p := by
  by_cases hx : (pyLower p == "exit" || pyLower p == "quit") = true
  · unfold obsNew newSDKTurn legacyTurn
    rw [if_pos hx, if_pos hx]
  · by_cases hp : (p == "") = true
    · unfold obsNew newSDKTurn legacyTurn
      rw [if_neg hx, if_neg hx, if_pos hp, if_pos hp]
    · rcases h with ⟨t, h0⟩ | ⟨e, h0, hf⟩
      · have hrr : runRetry att = ([Event.backendCall], RetryOutcome.got (BackendResp.text t)) := by
          rw [runRetry_unfold att, h0]
        unfold obsNew newSDKTurn legacyTurn
        rw [if_neg hx, if_neg hx, if_neg hp, if_neg hp, hrr, h0]
        simp only [respText]
        by_cases ht : (t == "") = true
        · rw [if_pos ht]
          simp [toolLoopAux, ht]
        · rw [if_neg ht]
          rcases hpr : processResponseText (jl t) t with pe | ⟨d, s, pevs⟩ <;>
            simp [toolLoopAux, ht, hpr]
      · have hrr : runRetry att = ([Event.backendCall], RetryOutcome.raisedErr e) := by
          rw [runRetry_unfold att, h0]
          simp [hf]
        unfold obsNew newSDKTurn legacyTurn
        rw [if_neg hx, if_neg hx, if_neg hp, if_neg hp, hrr, h0]
        simp

theorem c3_restricted_equivalence_witness :
    obsNew (newSDKTurn jlNone wAttOk [] "hello") =
      legacyTurn jlNone wAttOk none (4 + 1) "hello" :=
  c3_restricted_equivalence jlNone wAttOk none [] 4 "hello" (Or.inl ⟨"ok", rfl⟩)
